import Mathlib

/-!
# Verification of the DevPulse AI insight engine (`src/js/ai-insights.js`)

This file is a shallow embedding of the insight-scoring pipeline attached to
`window.DevPulseAI`.  Modelling conventions, kept uniform across the file:

* JavaScript numbers are embedded as exact rationals (`ℚ`); decimal literals
  such as `0.8` are written as the exact fractions they denote in the source
  text (`4/5`).  The one place where the source can divide by zero
  (`analyzeProjectJuggling`) is embedded with an explicit `JSNum` value so that
  the JavaScript result `Infinity` is represented faithfully instead of being
  collapsed to a default.
* `Math.sqrt` and `Math.log10` are taken as explicit function parameters
  (`sqrt`, `log10 : ℚ → ℚ`): every theorem below holds for an arbitrary
  interpretation of these primitives, and no theorem depends on their values.
* `Math.random()` draws are taken as explicit rational parameters; the
  `Rands` record carries one draw per call site, in source order.
* Timestamps (`created_at`) are epoch milliseconds (`ℕ`), and the `Date`
  accessors are embedded for the UTC timezone: `getHours` is
  `ms / 3600000 % 24`, `getDay` is `ms / 86400000 + 4 % 7` (day 0 of the epoch
  was a Thursday), and `toDateString` keys are calendar-day indices
  `ms / 86400000`.
* JavaScript objects used as insertion-ordered dictionaries
  (`groupEventsByDay`, `calculateDistribution`) are embedded as association
  lists that preserve first-insertion key order, matching `Object.keys` /
  `Object.values` / `Object.entries` iteration order.
* `new Set(xs)` is embedded as a duplicate-free list preserving
  first-insertion order (`jsSetList`).
-/

set_option linter.unusedVariables false

namespace DevPulseAI

/-- JavaScript number results where division by zero can occur:
`1/0 = Infinity`, `-1/0 = -Infinity`, `0/0 = NaN`. -/
inductive JSNum where
  | num (q : ℚ)
  | inf
  | negInf
  | nan
deriving DecidableEq, Repr

/-- JavaScript division producing `Infinity` / `NaN` on a zero denominator. -/
def jsDiv (a b : ℚ) : JSNum :=
  if b = 0 then
    if a > 0 then .inf else if a < 0 then .negInf else .nan
  else .num (a / b)

/-- Embeds `String.toLower` over the characters of a string, as
`(s || '').toLowerCase()` does in the source. -/
def jsToLower (s : String) : String :=
  String.mk (s.toList.map Char.toLower)

/-- JavaScript `hay.includes(needle)`: substring containment. -/
def strIncludes (hay needle : String) : Bool :=
  decide (needle.toList <:+: hay.toList)

/-- Embeds `new Set(xs)` rendered as a list: duplicates removed, first-insertion
order preserved (the order `Set` iteration uses). -/
def jsSetList (l : List String) : List String :=
  l.foldl (fun acc a => if a ∈ acc then acc else acc ++ [a]) []

/-- Embeds `new Set(xs)` over values that may be `undefined` (`none`): JavaScript
sets hold `undefined` as an ordinary element. -/
def jsSetListOpt (l : List (Option String)) : List (Option String) :=
  l.foldl (fun acc a => if a ∈ acc then acc else acc ++ [a]) []

/-- Embeds `.filter(Boolean)` over an array of nullable strings: drops
`null`/`undefined` and empty strings (both falsy). -/
def jsFilterBoolean (l : List (Option String)) : List String :=
  (l.filterMap id).filter (fun s => s ≠ "")

/-- Embeds `arr.slice(a, b)`: the elements at indices `[a, b)`. -/
def jsSlice {α : Type} (l : List α) (a b : ℕ) : List α :=
  (l.take b).drop a

/-- Embeds `new Date(ms).getHours()` in UTC. -/
def jsGetHours (ms : ℕ) : ℕ := ms / 3600000 % 24

/-- Embeds `new Date(ms).getDay()` in UTC; epoch day 0 (1970-01-01) was a Thursday,
day number 4. -/
def jsGetDay (ms : ℕ) : ℕ := (ms / 86400000 + 4) % 7

/-- Embeds `new Date(ms).toDateString()` distinguishes timestamps exactly by their
calendar day, embedded as the day index since the epoch. -/
def jsDateKey (ms : ℕ) : ℕ := ms / 86400000

/-- Day-of-week of a calendar-day key (what `new Date(date).getDay()` returns
when `date` is a `toDateString` key). -/
def dateKeyDow (d : ℕ) : ℕ := (d + 4) % 7

/-- A GitHub event record, with the fields the engine reads.  `publicFlag`
models the optional `public` property (`e.public !== false` is true when the
property is absent), `org` the optional `org.login`, `repoName` the optional
`repo.name`, and `payloadCommits` the optional `payload.commits.length`. -/
structure Event where
  type : String
  created_at : ℕ
  publicFlag : Option Bool := none
  org : Option String := none
  repoName : Option String := none
  payloadCommits : Option ℕ := none
deriving DecidableEq, Repr

/-- A GitHub repository record, with the fields the engine reads.  Timestamps
model ISO-8601 strings: present strings are truthy, so `r.created_at ||
r.updated_at` falls through only when `created_at` is absent. -/
structure Repo where
  name : Option String := none
  language : Option String := none
  fork : Bool := false
  description : Option String := none
  stargazers_count : Option ℕ := none
  forks_count : Option ℕ := none
  created_at : Option ℕ := none
  updated_at : Option ℕ := none
deriving DecidableEq, Repr

/-- The `userData` bundle passed to `generateInsights`.  Optional fields model
properties that may be absent from the object. -/
structure UserData where
  login : Option String := none
  repositories : Option (List Repo) := none
  events : Option (List Event) := none
  public_repos : Option ℕ := none
  followers : Option ℕ := none
deriving DecidableEq, Repr

/-- One rational in `[0,1)` per `Math.random()` call site, in source order. -/
structure Rands where
  rInnovation : ℚ := 0
  rCollaboration : ℚ := 0
  rConsistency : ℚ := 0
  rExploration : ℚ := 0
  rLeadership : ℚ := 0
  rBurnoutWork : ℚ := 0
  rBurnoutRisk : ℚ := 0
deriving DecidableEq, Repr

/-- Embeds `groupEventsByDay`: the `reduce` that buckets events by
`toDateString`, as an insertion-ordered association list. -/
def groupEventsByDay (events : List Event) : List (ℕ × List Event) :=
  events.foldl (fun groups e =>
    let d := jsDateKey e.created_at
    if groups.any (fun g => g.1 = d) then
      groups.map (fun g => if g.1 = d then (g.1, g.2 ++ [e]) else g)
    else groups ++ [(d, [e])]) []

/-- Embeds `analyzeTimeDistribution`: the 24 hourly event counts. -/
def analyzeTimeDistribution (events : List Event) : List ℕ :=
  (List.range 24).map (fun h =>
    (events.filter (fun e => jsGetHours e.created_at = h)).length)

/-- Embeds `analyzeWeeklyPattern`: the 7 day-of-week event counts. -/
def analyzeWeeklyPattern (events : List Event) : List ℕ :=
  (List.range 7).map (fun d =>
    (events.filter (fun e => jsGetDay e.created_at = d)).length)

/-- Embeds `identifyPeakHours`: hours whose count is at least 80% of the maximum. -/
def identifyPeakHours (hourlyDistribution : List ℕ) : List ℕ :=
  let maxActivity := hourlyDistribution.foldl Nat.max 0
  ((List.range hourlyDistribution.length).filter (fun h =>
    ((hourlyDistribution.getD h 0 : ℚ) ≥ (maxActivity : ℚ) * (4/5))))

/-- Embeds `calculateVariance` over an array of numbers. -/
def calculateVariance (array : List ℚ) : ℚ :=
  if array.length = 0 then 0
  else
    let mean := array.sum / array.length
    (array.map (fun val => (val - mean)^2)).sum / array.length

/-- The result record of `assessBurnoutRisk`.  The insufficient-data early
return carries no `recommendations` property, hence the `Option`. -/
structure BurnoutRisk where
  level : String
  advice : String
  score : ℚ
  recommendations : Option (List String)
deriving DecidableEq, Repr

/-- Embeds `assessBurnoutRisk(events, weeklyPattern)`; `rand` is that call's
`Math.random()` draw. -/
def assessBurnoutRisk (events : List Event) (weeklyPattern : List ℕ)
    (rand : ℚ) : BurnoutRisk :=
  if events.length < 20 then
    { level := "Low"
      advice := "Build consistent coding habits gradually"
      score := rand * 3 + 1
      recommendations := none }
  else
    let recentEvents := events.take (min 50 events.length)
    let intensity : ℚ := (recentEvents.length : ℚ) / (min 30 events.length : ℕ)
    let totalWeekly := weeklyPattern.sum
    let weekendWork : ℚ :=
      if totalWeekly > 0 then
        ((weeklyPattern.getD 0 0 + weeklyPattern.getD 6 0 : ℕ) : ℚ) / (totalWeekly : ℚ)
      else 0
    let hourlyDist := analyzeTimeDistribution recentEvents
    let totalHourly := hourlyDist.sum
    let lateNightWork : ℚ :=
      if totalHourly > 0 then
        (((hourlyDist.drop 22).sum + (hourlyDist.take 6).sum : ℕ) : ℚ) / (totalHourly : ℚ)
      else 0
    let dailyGroups := groupEventsByDay recentEvents
    let heavyDays := (dailyGroups.filter (fun day => day.2.length > 5)).length
    let clusteringScore : ℚ := (heavyDays : ℚ) / (max dailyGroups.length 1 : ℕ)
    let riskScore : ℚ :=
      (if intensity > 3 then 3 else if intensity > 2 then 2
       else if intensity > 3/2 then 1 else 0)
      + (if weekendWork > 2/5 then 3 else if weekendWork > 3/10 then 2
         else if weekendWork > 1/5 then 1 else 0)
      + (if lateNightWork > 3/10 then 2 else if lateNightWork > 1/5 then 1 else 0)
      + (if clusteringScore > 1/2 then 2 else if clusteringScore > 3/10 then 1 else 0)
    if riskScore ≥ 7 then
      { level := "High"
        advice := "Take immediate steps to prevent burnout"
        score := riskScore
        recommendations := some (["Schedule regular breaks and vacation time",
          "Set boundaries for work hours",
          "Consider delegating or reducing workload",
          "Practice stress management techniques"].take 2) }
    else if riskScore ≥ 4 then
      { level := "Medium"
        advice := "Monitor work intensity and maintain balance"
        score := riskScore
        recommendations := some (["Establish consistent work hours",
          "Take weekends off when possible",
          "Ensure adequate sleep schedule",
          "Include non-coding activities in your routine"].take 2) }
    else if riskScore ≥ 2 then
      { level := "Low-Medium"
        advice := "Good work pattern with minor areas to watch"
        score := riskScore
        recommendations := some (["Continue current healthy patterns",
          "Be mindful of late-night coding sessions",
          "Maintain work-life separation"].take 2) }
    else
      { level := "Low"
        advice := "Healthy work pattern detected"
        score := riskScore
        recommendations := some (["Excellent work-life balance",
          "Keep maintaining current habits",
          "Consider sharing your approach with others"].take 2) }

/-- Embeds `calculateInnovationScore(repos)`.  `now` is `Date.now()` and `rand` the
`Math.random()` draw of the no-data branch.  `forkRatio` is computed by the
source but never used. -/
def calculateInnovationScore (now : ℕ) (rand : ℚ) (repos : List Repo) : ℚ :=
  if repos.length = 0 then rand * 3 + 4
  else
    let uniqueLanguages := (jsSetList (jsFilterBoolean (repos.map (·.language)))).length
    let originalRepos := (repos.filter (fun r => !r.fork)).length
    let totalRepos := repos.length
    let _forkRatio : ℚ := 1 - ((originalRepos : ℚ) / (totalRepos : ℚ))
    let innovativeKeywords := ["experiment", "prototype", "poc", "demo",
      "innovative", "cutting-edge", "ai", "ml", "blockchain"]
    let experimentalRepos := (repos.filter (fun r =>
      let desc := jsToLower (r.description.getD "")
      innovativeKeywords.any (fun keyword => strIncludes desc keyword))).length
    let recentRepos := (repos.filter (fun r =>
      match r.created_at <|> r.updated_at with
      | some t => decide (((now : ℚ) - (t : ℚ)) / (1000 * 60 * 60 * 24 * 30) ≤ 6)
      | none => false)).length
    let score : ℚ :=
      min 4 ((uniqueLanguages : ℚ) * (4/5))
      + min 3 (((originalRepos : ℚ) / (max totalRepos 1 : ℕ)) * 4)
      + min 2 ((experimentalRepos : ℚ) * (1/2))
      + min 1 (((recentRepos : ℚ) / (max totalRepos 1 : ℕ)) * 2)
    min 10 (max 1 score)

/-- Embeds `calculateCollaborationScore(events)`.  `publicEvents` is computed by the
source but never used in the score. -/
def calculateCollaborationScore (rand : ℚ) (events : List Event) : ℚ :=
  if events.length = 0 then rand * 3 + 3
  else
    let collaborativeEvents := (events.filter (fun e =>
      e.type == "PullRequestEvent" || e.type == "IssuesEvent" ||
      e.type == "PullRequestReviewEvent" || e.type == "IssueCommentEvent")).length
    let _publicEvents := (events.filter (fun e => !(e.publicFlag == some false))).length
    let orgEvents := (events.filter (fun e => e.org.isSome)).length
    let watchEvents := (events.filter (fun e => e.type == "WatchEvent")).length
    let forkEvents := (events.filter (fun e => e.type == "ForkEvent")).length
    let score : ℚ :=
      min 4 (((collaborativeEvents : ℚ) / (max events.length 1 : ℕ)) * 10)
      + min 2 (((orgEvents : ℚ) / (max events.length 1 : ℕ)) * 8)
      + min 2 (((watchEvents : ℚ) / (max events.length 1 : ℕ)) * 20)
      + min 2 (((forkEvents : ℚ) / (max events.length 1 : ℕ)) * 15)
    min 10 (max 1 score)

/-- Embeds `calculateConsistencyScore(events)`.  `sqrt` interprets `Math.sqrt`;
`rand` covers both insufficient-data draws (the source can execute at most
one of them per call). -/
def calculateConsistencyScore (sqrt : ℚ → ℚ) (rand : ℚ)
    (events : List Event) : ℚ :=
  if events.length < 5 then rand * 4 + 3
  else
    let dailyActivity := groupEventsByDay events
    if dailyActivity.length < 7 then rand * 3 + 4
    else
      let activityCounts := dailyActivity.map (fun day => (day.2.length : ℚ))
      let mean := activityCounts.sum / (activityCounts.length : ℚ)
      let variance :=
        (activityCounts.map (fun count => (count - mean)^2)).sum
          / (activityCounts.length : ℚ)
      let stdDev := sqrt variance
      let coefficientOfVariation := if mean > 0 then stdDev / mean else 1
      let weekdayActivity := (dailyActivity.filter (fun g =>
        ¬ (dateKeyDow g.1 = 0 ∨ dateKeyDow g.1 = 6))).map (fun g => (g.2.length : ℚ))
      let weekendActivity := (dailyActivity.filter (fun g =>
        dateKeyDow g.1 = 0 ∨ dateKeyDow g.1 = 6)).map (fun g => (g.2.length : ℚ))
      let weekdayMean :=
        if weekdayActivity.length ≠ 0 then weekdayActivity.sum / (weekdayActivity.length : ℚ) else 0
      let weekendMean :=
        if weekendActivity.length ≠ 0 then weekendActivity.sum / (weekendActivity.length : ℚ) else 0
      let workLifeBalance := |weekdayMean - weekendMean| / max weekdayMean (max weekendMean 1)
      let score := 10 - coefficientOfVariation * 5 + min 2 ((1 - workLifeBalance) * 2)
      min 10 (max 1 score)

/-- The category table of `calculateExplorationScore`. -/
def languageCategories : List (String × List String) :=
  [("frontend", ["JavaScript", "TypeScript", "HTML", "CSS", "Vue", "React"]),
   ("backend", ["Java", "Python", "C#", "PHP", "Ruby", "Go", "Rust", "Node.js"]),
   ("mobile", ["Swift", "Kotlin", "Dart", "Objective-C"]),
   ("systems", ["C", "C++", "Rust", "Assembly"]),
   ("data", ["Python", "R", "Julia", "MATLAB", "Scala"]),
   ("functional", ["Haskell", "Clojure", "F#", "Erlang", "Elixir"])]

/-- Embeds `calculateExplorationScore(repos)`. -/
def calculateExplorationScore (rand : ℚ) (repos : List Repo) : ℚ :=
  if repos.length = 0 then rand * 3 + 4
  else
    let languages := jsFilterBoolean (repos.map (·.language))
    let uniqueLanguages := jsSetList languages
    let categoriesUsed := (languageCategories.filter (fun cat =>
      uniqueLanguages.any (fun lang => cat.2.contains lang))).length
    let emergingTech := ["Rust", "Go", "TypeScript", "Dart", "Julia", "Zig", "WebAssembly"]
    let emergingCount := (uniqueLanguages.filter (fun lang => emergingTech.contains lang)).length
    let nameHas (r : Repo) (s : String) : Bool := strIncludes (jsToLower (r.name.getD "")) s
    let descHas (r : Repo) (s : String) : Bool := strIncludes (jsToLower (r.description.getD "")) s
    let projectTypeFlags : List Bool :=
      [repos.any (fun r => nameHas r "web" || descHas r "website"),
       repos.any (fun r => nameHas r "mobile" || descHas r "android" || descHas r "ios"),
       repos.any (fun r => nameHas r "api" || descHas r "api"),
       repos.any (fun r => nameHas r "cli" || descHas r "command"),
       repos.any (fun r => descHas r "library" || descHas r "framework"),
       repos.any (fun r => descHas r "game"),
       repos.any (fun r => descHas r "ml" || descHas r "ai")]
    let projectTypes := (projectTypeFlags.filter id).length
    let score : ℚ :=
      min 3 ((uniqueLanguages.length : ℚ) * (1/2))
      + min 3 ((categoriesUsed : ℚ) * (4/5))
      + min 2 ((emergingCount : ℚ) * (4/5))
      + min 2 ((projectTypes : ℚ) * (2/5))
    min 10 (max 1 score)

/-- Embeds `calculateLeadershipScore(repos, events)`.  `log10` interprets
`Math.log10`.  `forkedRepos`, `documentedRepos`, `createEvents`,
`releaseEvents` and `totalForks` are computed by the source but never used. -/
def calculateLeadershipScore (log10 : ℚ → ℚ) (rand : ℚ)
    (repos : List Repo) (events : List Event) : ℚ :=
  if repos.length = 0 ∧ events.length = 0 then rand * 3 + 2
  else
    let ownedRepos := (repos.filter (fun r => !r.fork)).length
    let totalRepos := if repos.length = 0 then 1 else repos.length
    let ownershipRatio : ℚ := (ownedRepos : ℚ) / (totalRepos : ℚ)
    let starredRepos := (repos.filter (fun r => r.stargazers_count.getD 0 > 5)).length
    let _forkedRepos := (repos.filter (fun r => r.forks_count.getD 0 > 2)).length
    let _documentedRepos := (repos.filter (fun r =>
      r.description.isSome ∧ (r.description.getD "").length > 20)).length
    let _createEvents := (events.filter (fun e => e.type == "CreateEvent")).length
    let _releaseEvents := (events.filter (fun e => e.type == "ReleaseEvent")).length
    let organizationEvents := (events.filter (fun e => e.org.isSome)).length
    let mentorshipEvents := (events.filter (fun e =>
      e.type == "IssueCommentEvent" || e.type == "PullRequestReviewEvent")).length
    let totalStars := (repos.map (fun repo => repo.stargazers_count.getD 0)).sum
    let _totalForks := (repos.map (fun repo => repo.forks_count.getD 0)).sum
    let score : ℚ :=
      min 2 (ownershipRatio * 3)
      + min 2 (((starredRepos : ℚ) / (max totalRepos 1 : ℕ)) * 4)
      + min 2 (log10 (max (totalStars : ℚ) 1) * (4/5))
      + min 2 (((organizationEvents : ℚ) / (max events.length 1 : ℕ)) * 10)
      + min 2 (((mentorshipEvents : ℚ) / (max events.length 1 : ℕ)) * 8)
    min 10 (max 1 score)

/-- The five personality scores. -/
structure Metrics where
  innovation : ℚ
  collaboration : ℚ
  consistency : ℚ
  exploration : ℚ
  leadership : ℚ
deriving DecidableEq, Repr

/-- Embeds `determinePersonalityType(metrics)`: ordered threshold rules, first match
wins. -/
def determinePersonalityType (metrics : Metrics) : String :=
  if metrics.innovation > 7 ∧ metrics.exploration > 7 then "Innovator 🚀"
  else if metrics.collaboration > 7 ∧ metrics.consistency > 7 then "Team Player 🤝"
  else if metrics.consistency > 8 then "Reliable Contributor 🎯"
  else if metrics.exploration > 8 then "Technology Explorer 🔍"
  else "Balanced Developer ⚖️"

/-- The description table of `generatePersonalityDescription`. -/
def personalityDescriptions : List (String × String) :=
  [("Innovator 🚀", "You love experimenting with new technologies and creating original solutions."),
   ("Team Player 🤝", "You excel at collaboration and maintain consistent, reliable contributions."),
   ("Reliable Contributor 🎯", "You are known for consistent, high-quality work and dependability."),
   ("Technology Explorer 🔍", "You enjoy learning diverse technologies and exploring new domains."),
   ("Balanced Developer ⚖️", "You maintain a well-rounded approach to development and collaboration.")]

/-- Embeds `generatePersonalityDescription(metrics)`. -/
def generatePersonalityDescription (metrics : Metrics) : String :=
  (personalityDescriptions.lookup (determinePersonalityType metrics)).getD
    "A skilled developer with unique strengths."

/-- Embeds `identifyStrengths(metrics)`. -/
def identifyStrengths (metrics : Metrics) : List String :=
  let strengths :=
    (if metrics.innovation > 7 then ["Innovation & Creativity"] else [])
    ++ (if metrics.collaboration > 7 then ["Team Collaboration"] else [])
    ++ (if metrics.consistency > 7 then ["Reliable Delivery"] else [])
    ++ (if metrics.exploration > 7 then ["Technology Adaptability"] else [])
    ++ (if metrics.leadership > 7 then ["Technical Leadership"] else [])
  if strengths.length ≠ 0 then strengths
  else ["Dedicated Development", "Problem Solving"]

/-- Embeds `identifyGrowthAreas(metrics)`. -/
def identifyGrowthAreas (metrics : Metrics) : List String :=
  let areas :=
    (if metrics.innovation < 5 then ["Experiment with new technologies"] else [])
    ++ (if metrics.collaboration < 5 then ["Increase community involvement"] else [])
    ++ (if metrics.consistency < 5 then ["Develop regular coding habits"] else [])
    ++ (if metrics.exploration < 5 then ["Try diverse programming languages"] else [])
    ++ (if metrics.leadership < 5 then ["Take ownership of projects"] else [])
  if areas.length ≠ 0 then areas
  else ["Continue current excellent practices"]

/-- The result record of `analyzePersonalityProfile`. -/
structure PersonalityProfile where
  type : String
  scores : Metrics
  description : String
  strengths : List String
  growthAreas : List String
deriving DecidableEq, Repr

/-- Embeds `analyzePersonalityProfile(userData)`. -/
def analyzePersonalityProfile (now : ℕ) (sqrt log10 : ℚ → ℚ) (r : Rands)
    (userData : UserData) : PersonalityProfile :=
  let events := userData.events.getD []
  let repos := userData.repositories.getD []
  let metrics : Metrics :=
    { innovation := calculateInnovationScore now r.rInnovation repos
      collaboration := calculateCollaborationScore r.rCollaboration events
      consistency := calculateConsistencyScore sqrt r.rConsistency events
      exploration := calculateExplorationScore r.rExploration repos
      leadership := calculateLeadershipScore log10 r.rLeadership repos events }
  { type := determinePersonalityType metrics
    scores := metrics
    description := generatePersonalityDescription metrics
    strengths := identifyStrengths metrics
    growthAreas := identifyGrowthAreas metrics }

/-- Embeds `determineWorkingStyle(hourlyDist, weeklyDist)`.  The local `peakHours`
of the source is computed but never used afterwards. -/
def determineWorkingStyle (hourlyDist weeklyDist : List ℕ) : String :=
  let totalActivity := hourlyDist.sum
  if totalActivity = 0 then "Getting Started 🌱"
  else
    let maxActivity := hourlyDist.foldl Nat.max 0
    let _peakHours := ((List.range hourlyDist.length).filter (fun h =>
      ((hourlyDist.getD h 0 : ℚ) ≥ (maxActivity : ℚ) * (7/10))))
    let morningActivity := (jsSlice hourlyDist 6 12).sum
    let afternoonActivity := (jsSlice hourlyDist 12 18).sum
    let eveningActivity := (jsSlice hourlyDist 18 23).sum
    let nightActivity := (hourlyDist.drop 23).sum + (hourlyDist.take 6).sum
    let weekendActivity := weeklyDist.getD 0 0 + weeklyDist.getD 6 0
    let weekdayActivity := (jsSlice weeklyDist 1 6).sum
    let weekendRatio : ℚ :=
      (weekendActivity : ℚ) / (max (weekendActivity + weekdayActivity) 1 : ℕ)
    let weekdayVariance := calculateVariance ((jsSlice weeklyDist 1 6).map (fun n => (n : ℚ)))
    let isConsistent := weekdayVariance < 2
    if (nightActivity : ℚ) > (totalActivity : ℚ) * (2/5) then
      if isConsistent then "Consistent Night Owl 🦉" else "Irregular Night Coder 🌙"
    else if (morningActivity : ℚ) > (totalActivity : ℚ) * (2/5) then
      if isConsistent then "Early Bird Developer 🐦" else "Morning Burst Coder ☀️"
    else if weekendRatio > 2/5 then
      if eveningActivity > afternoonActivity then "Weekend Evening Warrior 💪"
      else "Weekend Day Hacker 🎯"
    else if (eveningActivity : ℚ) > (totalActivity : ℚ) * (2/5) then
      if isConsistent then "After-Hours Developer 🌆" else "Evening Sprint Coder 🏃"
    else if (afternoonActivity : ℚ) > (totalActivity : ℚ) * (2/5) then
      if isConsistent then "Afternoon Focused 📈" else "Midday Momentum 🔥"
    else if isConsistent then "Steady All-Day Contributor 🔄"
    else "Flexible Schedule Coder 🎨"

/-- The result record of `estimateSessionLength`. -/
structure SessionLength where
  average : String
  pattern : String
deriving DecidableEq, Repr

/-- The gaps (in minutes, below 4 hours) between consecutive same-day events,
after sorting each day group by `created_at`. -/
def sessionGapsOfDay (dayEvents : List Event) : List ℚ :=
  if dayEvents.length < 2 then []
  else
    let sorted := dayEvents.mergeSort (fun a b => a.created_at ≤ b.created_at)
    (sorted.zip sorted.tail).filterMap (fun p =>
      let gap : ℚ := ((p.2.created_at : ℚ) - (p.1.created_at : ℚ)) / (1000 * 60)
      if gap < 240 then some gap else none)

/-- Embeds `estimateSessionLength(events)`. -/
def estimateSessionLength (events : List Event) : SessionLength :=
  if events.length < 2 then { average := "Unknown", pattern := "Insufficient data" }
  else
    let dailyEvents := groupEventsByDay events
    let sessionLengths := dailyEvents.flatMap (fun g => sessionGapsOfDay g.2)
    if sessionLengths.length = 0 then
      { average := "1-2 hours", pattern := "Focused sessions" }
    else
      let averageGap := sessionLengths.sum / (sessionLengths.length : ℚ)
      if averageGap < 30 then { average := "Short bursts", pattern := "Frequent check-ins" }
      else if averageGap < 120 then { average := "1-2 hours", pattern := "Focused sessions" }
      else { average := "2+ hours", pattern := "Deep work sessions" }

/-- The result record of `analyzeProjectJuggling`.  With no repository-tagged
events the source divides by zero, which JavaScript evaluates to `Infinity`,
hence the `JSNum` field. -/
structure ProjectJuggling where
  uniqueProjects : ℕ
  averageEventsPerProject : JSNum
  multitaskingScore : ℚ
deriving DecidableEq, Repr

/-- Embeds `analyzeProjectJuggling(events)`. -/
def analyzeProjectJuggling (events : List Event) : ProjectJuggling :=
  let repoActivity := jsSetList (jsFilterBoolean (events.map (·.repoName)))
  let uniqueRepos := repoActivity.length
  let totalEvents := if events.length = 0 then 1 else events.length
  { uniqueProjects := uniqueRepos
    averageEventsPerProject := jsDiv (totalEvents : ℚ) (uniqueRepos : ℚ)
    multitaskingScore := min 10 ((uniqueRepos : ℚ) / 5 * 10) }

/-- Embeds `calculateWorkConsistency(weeklyPattern)`.  `sqrt` interprets
`Math.sqrt`. -/
def calculateWorkConsistency (sqrt : ℚ → ℚ) (weeklyPattern : List ℕ) : ℚ :=
  let totalActivity := weeklyPattern.sum
  if totalActivity = 0 then 5
  else
    let mean : ℚ := (totalActivity : ℚ) / 7
    let variance :=
      (weeklyPattern.map (fun day => ((day : ℚ) - mean)^2)).sum / 7
    let stdDev := sqrt variance
    max 0 (min 10 (10 - stdDev / mean * 3))

/-- The result record of `analyzeWorkPatterns`. -/
structure WorkPatterns where
  peakHours : List ℕ
  workingStyle : String
  sessionLength : SessionLength
  multitasking : ProjectJuggling
  consistency : ℚ
  burnoutRisk : BurnoutRisk
deriving DecidableEq, Repr

/-- Embeds `analyzeWorkPatterns(userData)`. -/
def analyzeWorkPatterns (sqrt : ℚ → ℚ) (r : Rands) (userData : UserData) :
    WorkPatterns :=
  let events := userData.events.getD []
  let hourlyDistribution := analyzeTimeDistribution events
  let weeklyPattern := analyzeWeeklyPattern events
  let projectJuggling := analyzeProjectJuggling events
  { peakHours := identifyPeakHours hourlyDistribution
    workingStyle := determineWorkingStyle hourlyDistribution weeklyPattern
    sessionLength := estimateSessionLength events
    multitasking := projectJuggling
    consistency := calculateWorkConsistency sqrt weeklyPattern
    burnoutRisk := assessBurnoutRisk events weeklyPattern r.rBurnoutWork }

/-- Embeds `calculateDistribution(items)`: frequency table as an insertion-ordered
association list. -/
def calculateDistribution (items : List String) : List (String × ℚ) :=
  let counts : List (String × ℕ) := items.foldl (fun acc item =>
    if acc.any (fun c => c.1 = item) then
      acc.map (fun c => if c.1 = item then (c.1, c.2 + 1) else c)
    else acc ++ [(item, 1)]) []
  let total := items.length
  counts.map (fun c => (c.1, (c.2 : ℚ) / (total : ℚ)))

/-- Embeds `analyzeLanguagePreferences(repos)`. -/
def analyzeLanguagePreferences (repos : List Repo) : List (String × ℚ) :=
  calculateDistribution (jsFilterBoolean (repos.map (·.language)))

/-- Embeds `categorizeProjectTypes(repos)`.  The `|| ['General Development']`
fallback of the source is dead code, because an empty array is truthy. -/
def categorizeProjectTypes (repos : List Repo) : List String :=
  let nameHas (r : Repo) (s : String) : Bool := strIncludes (jsToLower (r.name.getD "")) s
  let descHas (r : Repo) (s : String) : Bool := strIncludes (jsToLower (r.description.getD "")) s
  let categories := repos.flatMap (fun repo =>
    (if nameHas repo "api" || descHas repo "api" then ["API Development"] else [])
    ++ (if nameHas repo "web" || descHas repo "website" then ["Web Development"] else [])
    ++ (if nameHas repo "mobile" || descHas repo "android" || descHas repo "ios" then
          ["Mobile Development"] else [])
    ++ (if nameHas repo "game" || descHas repo "game" then ["Game Development"] else [])
    ++ (if nameHas repo "ml" || descHas repo "machine learning" || descHas repo "ai" then
          ["Machine Learning"] else [])
    ++ (if nameHas repo "tool" || descHas repo "tool" || descHas repo "utility" then
          ["Developer Tools"] else [])
    ++ (if nameHas repo "lib" || descHas repo "library" then ["Library Development"] else []))
  (jsSetList categories).take 5

/-- The result record of `analyzeCommitStyle`. -/
structure CommitStyle where
  style : String
  pattern : String
deriving DecidableEq, Repr

/-- Embeds `analyzeCommitStyle(events)`. -/
def analyzeCommitStyle (events : List Event) : CommitStyle :=
  let pushEvents := events.filter (fun e => e.type == "PushEvent")
  if pushEvents.length = 0 then { style := "Unknown", pattern := "No push events found" }
  else
    -- `e.payload?.commits?.length || 1`: an absent commit list, and also a
    -- present but empty one (length 0 is falsy), both count as 1.
    let commitCounts := pushEvents.map (fun e =>
      match e.payloadCommits with
      | some n => if n = 0 then 1 else n
      | none => 1)
    let averageCommitsPerPush : ℚ :=
      ((commitCounts.map (fun n => (n : ℚ))).sum) / (commitCounts.length : ℚ)
    if averageCommitsPerPush < 2 then
      { style := "Atomic Commits", pattern := "Small, focused changes" }
    else if averageCommitsPerPush < 5 then
      { style := "Moderate Batches", pattern := "Balanced approach" }
    else { style := "Large Batches", pattern := "Comprehensive changes" }

/-- Embeds `analyzeTestingApproach(repos)`. -/
def analyzeTestingApproach (repos : List Repo) : String :=
  let testIndicators := repos.filter (fun repo =>
    strIncludes (jsToLower (repo.name.getD "")) "test" ||
    strIncludes (jsToLower (repo.description.getD "")) "test" ||
    strIncludes (jsToLower (repo.description.getD "")) "testing")
  let testRatio : ℚ :=
    (testIndicators.length : ℚ) / ((if repos.length = 0 then 1 else repos.length : ℕ) : ℚ)
  if testRatio > 3/10 then "Test-Driven Development"
  else if testRatio > 1/10 then "Testing-Aware"
  else "Exploratory Development"

/-- Embeds `analyzeArchitectureStyle(repos)`.  The `|| ['Standard Architecture']`
fallback of the source is dead code, because an empty array is truthy. -/
def analyzeArchitectureStyle (repos : List Repo) : List String :=
  let descHas (r : Repo) (s : String) : Bool := strIncludes (jsToLower (r.description.getD "")) s
  let patterns := repos.flatMap (fun repo =>
    (if descHas repo "microservice" || descHas repo "micro-service" then ["Microservices"] else [])
    ++ (if descHas repo "monolith" then ["Monolithic"] else [])
    ++ (if descHas repo "serverless" || descHas repo "lambda" then ["Serverless"] else [])
    ++ (if descHas repo "docker" || descHas repo "container" then ["Containerized"] else [])
    ++ (if descHas repo "mvc" || descHas repo "mvp" || descHas repo "mvvm" then
          ["MV* Pattern"] else []))
  (jsSetList patterns).take 3

/-- The result record of `analyzeCodingStyle`. -/
structure CodingStyle where
  languagePreferences : List (String × ℚ)
  projectTypes : List String
  commitStyle : CommitStyle
  testingApproach : String
  architectureStyle : List String
deriving DecidableEq, Repr

/-- Embeds `analyzeCodingStyle(userData)`. -/
def analyzeCodingStyle (userData : UserData) : CodingStyle :=
  let repos := userData.repositories.getD []
  let events := userData.events.getD []
  { languagePreferences := analyzeLanguagePreferences repos
    projectTypes := categorizeProjectTypes repos
    commitStyle := analyzeCommitStyle events
    testingApproach := analyzeTestingApproach repos
    architectureStyle := analyzeArchitectureStyle repos }

/-- Embeds `assessTeamPlayerScore(events)`. -/
def assessTeamPlayerScore (events : List Event) : ℚ :=
  let collaborativeEvents := (events.filter (fun e =>
    e.type == "PullRequestEvent" || e.type == "IssuesEvent" ||
    e.type == "PullRequestReviewEvent" || e.type == "IssueCommentEvent")).length
  min 10 (((collaborativeEvents : ℚ) /
    ((if events.length = 0 then 1 else events.length : ℕ) : ℚ)) * 20)

/-- Embeds `analyzeMentorshipStyle(events)`. -/
def analyzeMentorshipStyle (events : List Event) : String :=
  let helpfulEvents := (events.filter (fun e =>
    e.type == "IssueCommentEvent" || e.type == "PullRequestReviewEvent")).length
  if helpfulEvents > 20 then "Active Mentor"
  else if helpfulEvents > 10 then "Helpful Contributor"
  else if helpfulEvents > 5 then "Occasional Helper"
  else "Focus on Own Work"

/-- Embeds `analyzeCommunicationStyle(events)`. -/
def analyzeCommunicationStyle (events : List Event) : String :=
  let communicationEvents := (events.filter (fun e =>
    e.type == "IssueCommentEvent" || e.type == "PullRequestReviewEvent" ||
    e.type == "IssuesEvent")).length
  let ratio : ℚ := (communicationEvents : ℚ) /
    ((if events.length = 0 then 1 else events.length : ℕ) : ℚ)
  if ratio > 2/5 then "Highly Communicative"
  else if ratio > 1/5 then "Good Communicator"
  else if ratio > 1/10 then "Moderate Communicator"
  else "Task-Focused"

/-- Embeds `assessLeadershipTendencies(repos, events)`. -/
def assessLeadershipTendencies (repos : List Repo) (events : List Event) : String :=
  let ownedRepos := (repos.filter (fun r => !r.fork)).length
  let starredRepos := (repos.map (fun repo => repo.stargazers_count.getD 0)).sum
  let organizationActivity := (events.filter (fun e => e.org.isSome)).length
  let leadership : ℚ :=
    ((ownedRepos : ℚ) * 2 + (starredRepos : ℚ) * (1/10) +
      (organizationActivity : ℚ) * (1/2)) / 10
  if leadership > 8 then "Strong Leader"
  else if leadership > 5 then "Emerging Leader"
  else if leadership > 2 then "Team Contributor"
  else "Individual Contributor"

/-- The result record of `estimateNetworkSize`. -/
structure NetworkSize where
  repositoryNetwork : ℕ
  organizationNetwork : ℕ
  networkScore : ℚ
deriving DecidableEq, Repr

/-- Embeds `estimateNetworkSize(events)`. -/
def estimateNetworkSize (events : List Event) : NetworkSize :=
  let uniqueRepos := (jsSetList (jsFilterBoolean (events.map (·.repoName)))).length
  let uniqueOrgs := (jsSetList (jsFilterBoolean (events.map (·.org)))).length
  { repositoryNetwork := uniqueRepos
    organizationNetwork := uniqueOrgs
    networkScore := min 10 ((uniqueRepos : ℚ) * (1/5) + (uniqueOrgs : ℚ) * 2) }

/-- The result record of `analyzeCollaborationStyle`. -/
structure CollaborationStyle where
  teamPlayer : ℚ
  mentorshipStyle : String
  communicationStyle : String
  leadership : String
  networkSize : NetworkSize
deriving DecidableEq, Repr

/-- Embeds `analyzeCollaborationStyle(userData)`. -/
def analyzeCollaborationStyle (userData : UserData) : CollaborationStyle :=
  let events := userData.events.getD []
  let repos := userData.repositories.getD []
  { teamPlayer := assessTeamPlayerScore events
    mentorshipStyle := analyzeMentorshipStyle events
    communicationStyle := analyzeCommunicationStyle events
    leadership := assessLeadershipTendencies repos events
    networkSize := estimateNetworkSize events }

/-- The summary record returned by `analyzeBasicPatterns`. -/
structure BasicPatterns where
  languages : List String
  repoCount : ℕ
  followerCount : ℕ
  recentActivity : ℕ
deriving DecidableEq, Repr

/-- Embeds `analyzeBasicPatterns(userData)`. -/
def analyzeBasicPatterns (userData : UserData) : BasicPatterns :=
  { languages :=
      match userData.repositories with
      | some repos => jsFilterBoolean (repos.map (·.language))
      | none => []
    repoCount := userData.public_repos.getD 0
    followerCount := userData.followers.getD 0
    recentActivity :=
      match userData.events with
      | some events => events.length
      | none => 0 }

/-- One recommendation record. -/
structure Recommendation where
  type : String
  title : String
  description : String
  confidence : ℚ
  icon : String
deriving DecidableEq, Repr

/-- Embeds `generateTechRecommendations(insights)`. -/
def generateTechRecommendations (insights : BasicPatterns) : List Recommendation :=
  let languages := insights.languages
  let repoCount := insights.repoCount
  let recentActivity := insights.recentActivity
  let recommendations :=
    (if languages.contains "JavaScript" then
      (if ¬ languages.contains "TypeScript" then
        [{ type := "Technology", title := "Upgrade to TypeScript"
           description := "Enhance your JavaScript projects with TypeScript for better type safety and developer experience."
           confidence := 9/10, icon := "📘" }]
       else [])
      ++ (if ¬ languages.contains "React" ∧ ¬ languages.contains "Vue" then
        [{ type := "Technology", title := "Learn React or Vue.js"
           description := "Modern frontend frameworks will boost your web development capabilities."
           confidence := 4/5, icon := "⚛️" }]
       else [])
     else [])
    ++ (if languages.contains "Python" then
      (if repoCount > 5 then
        [{ type := "Technology", title := "Explore FastAPI"
           description := "Build high-performance APIs with Python using FastAPI framework."
           confidence := 4/5, icon := "🚀" }]
       else [])
      ++ (if ¬ languages.contains "Java" ∧ ¬ languages.contains "Go" then
        [{ type := "Technology", title := "Try Go Programming"
           description := "Go offers excellent performance and simplicity, perfect for backend services."
           confidence := 7/10, icon := "🐹" }]
       else [])
     else [])
    ++ (if languages.contains "Java" then
      [{ type := "Technology", title := "Explore Kotlin"
         description := "Kotlin provides modern language features while maintaining Java compatibility."
         confidence := 4/5, icon := "🎯" }]
     else [])
    ++ (if recentActivity > 20 then
      [{ type := "Technology", title := "Container Technologies"
         description := "Docker and Kubernetes can streamline your deployment process."
         confidence := 9/10, icon := "🐳" }]
     else [])
    ++ (if repoCount > 10 then
      [{ type := "Technology", title := "CI/CD Automation"
         description := "GitHub Actions or Jenkins can automate your development workflow."
         confidence := 17/20, icon := "🔄" }]
     else [])
    ++ (if languages.length = 0 then
      [{ type := "Technology", title := "Start with JavaScript"
         description := "JavaScript is versatile and perfect for both frontend and backend development."
         confidence := 9/10, icon := "💛" }]
     else [])
  recommendations.take 3

/-- Embeds `generateLearningRecommendations(insights)`. -/
def generateLearningRecommendations (insights : BasicPatterns) : List Recommendation :=
  let languages := insights.languages
  let repoCount := insights.repoCount
  let followerCount := insights.followerCount
  let recommendations :=
    (if repoCount < 5 then
      [{ type := "Learning", title := "Git & GitHub Mastery"
         description := "Master version control and collaboration workflows to boost your development skills."
         confidence := 19/20, icon := "📚" },
       { type := "Learning", title := "Algorithm & Data Structures"
         description := "Build strong programming fundamentals with algorithms and data structures."
         confidence := 9/10, icon := "🧮" }]
     else if repoCount < 15 then
      [{ type := "Learning", title := "System Design Patterns"
         description := "Learn scalable architecture patterns for building robust applications."
         confidence := 17/20, icon := "🏗️" },
       { type := "Learning", title := "Testing Best Practices"
         description := "Unit testing, integration testing, and TDD will improve your code quality."
         confidence := 4/5, icon := "🧪" }]
     else
      [{ type := "Learning", title := "Cloud Architecture"
         description := "AWS, Azure, or GCP certifications can advance your cloud expertise."
         confidence := 4/5, icon := "☁️" },
       { type := "Learning", title := "Technical Leadership"
         description := "Develop mentoring and team leadership skills for career advancement."
         confidence := 3/4, icon := "👨‍🏫" }])
    ++ (if languages.contains "JavaScript" ∧ languages.contains "Python" then
      [{ type := "Learning", title := "Full-Stack Development"
         description := "Combine your JavaScript and Python skills for end-to-end development."
         confidence := 9/10, icon := "🔄" }]
     else [])
    ++ (if followerCount > 50 then
      [{ type := "Learning", title := "Developer Advocacy"
         description := "Your growing network suggests potential in developer relations and advocacy."
         confidence := 7/10, icon := "📢" }]
     else [])
  recommendations.take 2

/-- Embeds `generateProductivityRecommendations(insights)`. -/
def generateProductivityRecommendations (insights : BasicPatterns) : List Recommendation :=
  let recentActivity := insights.recentActivity
  let repoCount := insights.repoCount
  let recommendations :=
    (if recentActivity > 30 then
      [{ type := "Productivity", title := "Automate Repetitive Tasks"
         description := "High activity suggests you could benefit from automation scripts and tools."
         confidence := 9/10, icon := "🤖" },
       { type := "Productivity", title := "Time Management"
         description := "Consider time-blocking and the Pomodoro Technique for sustained productivity."
         confidence := 4/5, icon := "⏰" }]
     else if recentActivity < 10 then
      [{ type := "Productivity", title := "Consistent Coding Schedule"
         description := "Establish a regular coding routine to maintain momentum and skills."
         confidence := 17/20, icon := "📅" }]
     else [])
    ++ (if repoCount > 20 then
      [{ type := "Productivity", title := "Repository Organization"
         description := "Organize repositories with clear documentation and naming conventions."
         confidence := 4/5, icon := "📁" }]
     else [])
    ++ [{ type := "Productivity", title := "Code Review Practices"
          description := "Regular code reviews improve quality and knowledge sharing."
          confidence := 3/4, icon := "👥" }]
  recommendations.take 2

/-- Embeds `generateCareerRecommendations(insights)`. -/
def generateCareerRecommendations (insights : BasicPatterns) : List Recommendation :=
  let repoCount := insights.repoCount
  let followerCount := insights.followerCount
  let languages := insights.languages
  let recommendations :=
    (if repoCount > 15 ∧ followerCount > 30 then
      [{ type := "Career", title := "Technical Leadership Role"
         description := "Your portfolio and network suggest readiness for senior or lead positions."
         confidence := 17/20, icon := "🎯" }]
     else if repoCount > 8 then
      [{ type := "Career", title := "Senior Developer Position"
         description := "Your experience level indicates potential for advancement to senior roles."
         confidence := 4/5, icon := "⬆️" }]
     else [])
    ++ (if languages.length > 3 then
      [{ type := "Career", title := "Full-Stack Development"
         description := "Your diverse language skills make you well-suited for full-stack roles."
         confidence := 4/5, icon := "🌐" }]
     else [])
    ++ (if followerCount > 100 then
      [{ type := "Career", title := "Developer Relations"
         description := "Your strong community presence suggests potential in DevRel roles."
         confidence := 3/4, icon := "🤝" }]
     else [])
    ++ [{ type := "Career", title := "Open Source Contribution"
          description := "Contributing to major projects can significantly boost your professional profile."
          confidence := 9/10, icon := "🌟" }]
    ++ (if languages.contains "Python" ∨ languages.contains "JavaScript" then
      [{ type := "Career", title := "Freelance Opportunities"
         description := "Your skills are in high demand for freelance and contract work."
         confidence := 7/10, icon := "💼" }]
     else [])
  recommendations.take 2

/-- Embeds `generateRecommendations(userData)`: the four category lists in order,
truncated to 8. -/
def generateRecommendations (userData : UserData) : List Recommendation :=
  let insights := analyzeBasicPatterns userData
  (generateTechRecommendations insights
    ++ generateLearningRecommendations insights
    ++ generateProductivityRecommendations insights
    ++ generateCareerRecommendations insights).take 8

/-- The `progressionMap` table of `predictNextTechnology`:
`language ↦ (primary, advanced)`. -/
def progressionMap (lang : String) : Option (List String × List String) :=
  if lang = "JavaScript" then
    some (["TypeScript", "React", "Vue.js", "Node.js"],
          ["Deno", "WebAssembly", "GraphQL", "Next.js"])
  else if lang = "TypeScript" then
    some (["React", "Angular", "Vue.js", "Svelte"],
          ["NestJS", "Prisma", "tRPC", "SolidJS"])
  else if lang = "Python" then
    some (["Django", "FastAPI", "Flask", "TensorFlow"],
          ["PyTorch", "Pandas", "Celery", "Airflow"])
  else if lang = "Java" then
    some (["Spring Boot", "Kotlin", "Maven", "Gradle"],
          ["Quarkus", "Micronaut", "Scala", "Clojure"])
  else if lang = "C#" then
    some ([".NET Core", "ASP.NET", "Blazor", "Unity"],
          ["F#", "Azure Functions", "SignalR", "gRPC"])
  else if lang = "Go" then
    some (["Gin", "Echo", "Docker", "Kubernetes"],
          ["gRPC", "Cobra", "Viper", "NATS"])
  else if lang = "Rust" then
    some (["Actix", "Rocket", "Tokio", "Serde"],
          ["WebAssembly", "Tauri", "Bevy", "egui"])
  else if lang = "PHP" then
    some (["Laravel", "Symfony", "Composer", "PHPUnit"],
          ["ReactPHP", "Swoole", "Psalm", "Rector"])
  else none

/-- Embeds `getTechRecommendationReasoning(languages, uniqueLanguages)`. -/
def getTechRecommendationReasoning (languages : List String)
    (uniqueLanguages : ℕ) : String :=
  if uniqueLanguages ≥ 5 then "Based on your diverse technology experience"
  else if languages.contains "JavaScript" ∧ languages.contains "Python" then
    "Perfect for full-stack development progression"
  else if languages.contains "JavaScript" then
    "Natural evolution of your JavaScript skills"
  else if languages.contains "Python" then
    "Complements your Python expertise well"
  else "Popular choice for modern development"

/-- The result record of `predictNextTechnology`. -/
structure NextTech where
  primary : String
  alternatives : List String
  confidence : ℚ
  reasoning : String
deriving DecidableEq, Repr

/-- Embeds `predictNextTechnology(repos)`.  The local `languageCount` table of the
source is built but never read. -/
def predictNextTechnology (repos : List Repo) : NextTech :=
  let languages := jsFilterBoolean (repos.map (·.language))
  let recentLanguages := jsFilterBoolean ((repos.take 5).map (·.language))
  let _languageCount := calculateDistribution languages
  let trendingTech := ["Rust", "Go", "TypeScript", "Svelte", "Astro", "Deno",
    "WebAssembly", "Tauri", "SolidJS", "Qwik", "Fresh", "Bun"]
  let usedLanguages := languages
  let fromProgression := recentLanguages.flatMap (fun lang =>
    match progressionMap lang with
    | some maps =>
        (maps.1.filter (fun tech => ¬ usedLanguages.contains tech)).take 2
        ++ (if (languages.filter (fun l => l == lang)).length ≥ 3 then
              (maps.2.filter (fun tech => ¬ usedLanguages.contains tech)).take 1
            else [])
    | none => [])
  let uniqueLanguages := (jsSetList languages).length
  let suggestions :=
    fromProgression
    ++ (if uniqueLanguages ≥ 3 then
          (trendingTech.filter (fun tech => ¬ usedLanguages.contains tech)).take 2
        else [])
  let uniqueSuggestions := jsSetList suggestions
  let confidence : ℚ :=
    min (9/10) (1/2 + (uniqueLanguages : ℚ) * (1/10) + (repos.length : ℚ) * (1/100))
  { primary := (uniqueSuggestions.head?).getD "React"
    alternatives := jsSlice uniqueSuggestions 1 4
    confidence := confidence
    reasoning := getTechRecommendationReasoning languages uniqueLanguages }

/-- The result record of `predictActivityTrend`. -/
structure ActivityTrend where
  trend : String
  confidence : ℚ
  description : String
deriving DecidableEq, Repr

/-- Embeds `predictActivityTrend(events)`. -/
def predictActivityTrend (events : List Event) : ActivityTrend :=
  if events.length < 10 then
    { trend := "Building Momentum 📈", confidence := 3/5
      description := "Start building consistent coding habits" }
  else
    let recent := jsSlice events 0 (events.length / 3)
    let middle := jsSlice events (events.length / 3) (events.length * 2 / 3)
    let older := events.drop (events.length * 2 / 3)
    let recentActivity := recent.length
    let middleActivity := middle.length
    let olderActivity := older.length
    let recentToMiddle : ℚ := (recentActivity : ℚ) / (max middleActivity 1 : ℕ)
    let middleToOlder : ℚ := (middleActivity : ℚ) / (max olderActivity 1 : ℕ)
    let overallTrend := (recentToMiddle + middleToOlder) / 2
    let commitEvents := (recent.filter (fun e => e.type == "PushEvent")).length
    let collaborativeEvents := (recent.filter (fun e =>
      e.type == "PullRequestEvent" || e.type == "IssuesEvent")).length
    let tcd : String × ℚ × String :=
      if overallTrend > 13/10 then
        ("Rapidly Increasing 🚀", 9/10, "Your coding activity is accelerating significantly")
      else if overallTrend > 11/10 then
        ("Steadily Growing 📈", 4/5, "Consistent upward trend in development activity")
      else if overallTrend > 9/10 then
        ("Stable & Consistent 📊", 9/10, "Maintaining steady development rhythm")
      else if overallTrend > 7/10 then
        ("Slightly Decreasing 📉", 4/5, "Minor decline, consider new projects for motivation")
      else
        ("Needs Attention 🔄", 7/10, "Activity has decreased, time to reignite your coding passion")
    let description :=
      if collaborativeEvents > commitEvents then tcd.2.2 ++ " • Strong collaboration focus"
      else if commitEvents > collaborativeEvents * 2 then tcd.2.2 ++ " • High development velocity"
      else tcd.2.2
    { trend := tcd.1, confidence := tcd.2.1, description := description }

/-- The result record of both `predictCollaborationGrowth` definitions.  The
second (overriding) definition produces no `suggestion` property, hence the
`Option`. -/
structure CollabPrediction where
  trend : String
  confidence : ℚ
  suggestion : Option String
deriving DecidableEq, Repr

/-- The first (lines 1006-1061, shadowed) definition of
`predictCollaborationGrowth`. -/
def predictCollaborationGrowthV1 (events : List Event) : CollabPrediction :=
  let collaborativeEvents := events.filter (fun e =>
    e.type == "PullRequestEvent" || e.type == "IssuesEvent" ||
    e.type == "PullRequestReviewEvent" || e.type == "IssueCommentEvent")
  if collaborativeEvents.length < 5 then
    { trend := "Start Collaborating 🤝", confidence := 7/10
      suggestion := some "Consider contributing to open source projects" }
  else
    let recent := jsSlice collaborativeEvents 0 (collaborativeEvents.length / 2)
    let older := collaborativeEvents.drop (collaborativeEvents.length / 2)
    let recentCollab := recent.length
    let olderCollab := older.length
    let growthRatio : ℚ := (recentCollab : ℚ) / (max olderCollab 1 : ℕ)
    let uniqueRepos := (jsSetListOpt (collaborativeEvents.map (·.repoName))).length
    let uniqueOrgs := (jsSetList (jsFilterBoolean (collaborativeEvents.map (·.org)))).length
    let ts : String × String × ℚ :=
      if growthRatio > 3/2 then
        ("Rapidly Expanding Network 🌟",
         "Excellent collaboration growth, consider mentoring others", 9/10)
      else if growthRatio > 6/5 then
        ("Growing Collaboration 📈", "Great progress in community engagement", 4/5)
      else if growthRatio > 4/5 then
        ("Stable Community Presence 🔄",
         "Consistent engagement, try exploring new communities", 4/5)
      else
        ("Rebuild Connections 🔗",
         "Re-engage with the community through issues and PRs", 7/10)
    let suggestion :=
      if uniqueOrgs > 3 then ts.2.1 ++ " • Strong multi-org presence"
      else if uniqueRepos > 10 then ts.2.1 ++ " • Good project diversity"
      else ts.2.1
    { trend := ts.1, confidence := ts.2.2, suggestion := some suggestion }

/-- The second (lines 1431-1450, overriding) definition of
`predictCollaborationGrowth`. -/
def predictCollaborationGrowthV2 (events : List Event) : CollabPrediction :=
  let recent := jsSlice events 0 15
  let older := jsSlice events 15 30
  let recentCollab := (recent.filter (fun e =>
    e.type == "PullRequestEvent" || e.type == "IssuesEvent")).length
  let olderCollab := (older.filter (fun e =>
    e.type == "PullRequestEvent" || e.type == "IssuesEvent")).length
  if (recentCollab : ℚ) > (olderCollab : ℚ) * (13/10) then
    { trend := "Increasing Collaboration 🤝", confidence := 4/5, suggestion := none }
  else if (recentCollab : ℚ) < (olderCollab : ℚ) * (7/10) then
    { trend := "Focusing Inward 🔄", confidence := 7/10, suggestion := none }
  else
    { trend := "Stable Collaboration 📊", confidence := 9/10, suggestion := none }

/-- Embeds `getSkillDevelopmentRecommendations(totalLanguages, learningProjects)`. -/
def getSkillDevelopmentRecommendations (totalLanguages learningProjects : ℕ) :
    List String :=
  (if totalLanguages < 3 then
    ["Try a different programming paradigm (functional, object-oriented)"]
   else if totalLanguages < 5 then
    ["Explore cloud technologies or DevOps tools"]
   else
    ["Consider specializing in a specific domain (AI, security, etc.)"])
  ++ (if learningProjects < 2 then
    ["Create more learning-focused repositories"]
   else [])

/-- The result record of both `predictSkillDevelopment` definitions.  The
second (overriding) definition produces no `insights` or `recommendations`
property, hence the `Option`s. -/
structure SkillPrediction where
  learningVelocity : String
  skillDiversification : String
  confidence : ℚ
  insights : Option String
  recommendations : Option (List String)
deriving DecidableEq, Repr

/-- The first (lines 1063-1127, shadowed) definition of
`predictSkillDevelopment`. -/
def predictSkillDevelopmentV1 (repos : List Repo) (events : List Event) :
    SkillPrediction :=
  let recentRepos := repos.take (min 5 repos.length)
  let allLanguages := jsSetList (jsFilterBoolean (repos.map (·.language)))
  let recentLanguages := jsSetList (jsFilterBoolean (recentRepos.map (·.language)))
  let learningKeywords := ["tutorial", "learning", "practice", "exercise",
    "course", "bootcamp", "study"]
  let experimentalKeywords := ["experiment", "prototype", "demo", "test", "trial", "poc"]
  let hasKw (r : Repo) (kw : String) : Bool :=
    strIncludes (jsToLower (r.name.getD "")) kw ||
    strIncludes (jsToLower (r.description.getD "")) kw
  let learningProjects := (repos.filter (fun r =>
    learningKeywords.any (fun keyword => hasKw r keyword))).length
  let experimentalProjects := (repos.filter (fun r =>
    experimentalKeywords.any (fun keyword => hasKw r keyword))).length
  let totalLanguages := allLanguages.length
  let newLanguages := (recentLanguages.filter (fun lang =>
    ¬ (repos.drop 5).any (fun r => r.language == some lang))).length
  let vi : String × String :=
    if learningProjects ≥ 3 ∨ experimentalProjects ≥ 2 then
      ("High - Active Learner 🔥", "Strong commitment to continuous learning")
    else if learningProjects ≥ 1 ∨ newLanguages ≥ 2 then
      ("Moderate - Steady Growth 📈", "Consistent skill development pattern")
    else if newLanguages ≥ 1 then
      ("Slow but Steady 🐢", "Gradual expansion of skill set")
    else
      ("Deepening Expertise 🎯", "Focusing on mastering current technologies")
  let skillDiversification :=
    if totalLanguages ≥ 6 then "Polyglot Developer 🌈"
    else if totalLanguages ≥ 4 then "Well-Rounded 🔄"
    else if totalLanguages ≥ 2 then "Expanding Horizons 📚"
    else "Specialist Focus 🎯"
  let confidence : ℚ :=
    min (9/10) (3/5 + (repos.length : ℚ) * (1/50) + (totalLanguages : ℚ) * (1/20))
  { learningVelocity := vi.1
    skillDiversification := skillDiversification
    confidence := confidence
    insights := some vi.2
    recommendations := some (getSkillDevelopmentRecommendations totalLanguages learningProjects) }

/-- The second (lines 1452-1466, overriding) definition of
`predictSkillDevelopment`.  Keyword checks here do not lowercase and touch
only the description. -/
def predictSkillDevelopmentV2 (repos : List Repo) (_events : List Event) :
    SkillPrediction :=
  let recentRepos := repos.take 5
  let recentLanguages := jsSetList (jsFilterBoolean (recentRepos.map (·.language)))
  let experimentalProjects := (recentRepos.filter (fun r =>
    strIncludes (r.description.getD "") "learning" ||
    strIncludes (r.description.getD "") "tutorial" ||
    strIncludes (r.description.getD "") "experiment")).length
  { learningVelocity :=
      if experimentalProjects > 2 then "High"
      else if experimentalProjects > 0 then "Moderate"
      else "Stable"
    skillDiversification := if recentLanguages.length > 2 then "Expanding" else "Deepening"
    confidence := 7/10
    insights := none
    recommendations := none }

/-- A JavaScript object literal binds each duplicated key to the value of its
last occurrence: resolution picks the final element of the source-ordered
binding list. -/
def objectResolve {α : Type} (bindings : List α) (h : bindings ≠ []) : α :=
  bindings.getLast h

/-- The source-ordered bindings that the object literal makes for the key
`predictCollaborationGrowth` (lines 1006 and 1431). -/
def predictCollaborationGrowthBindings : List (List Event → CollabPrediction) :=
  [predictCollaborationGrowthV1, predictCollaborationGrowthV2]

/-- The source-ordered bindings that the object literal makes for the key
`predictSkillDevelopment` (lines 1063 and 1452). -/
def predictSkillDevelopmentBindings :
    List (List Repo → List Event → SkillPrediction) :=
  [predictSkillDevelopmentV1, predictSkillDevelopmentV2]

/-- The method the engine object actually holds under
`predictCollaborationGrowth`. -/
def predictCollaborationGrowth : List Event → CollabPrediction :=
  objectResolve predictCollaborationGrowthBindings (by simp [predictCollaborationGrowthBindings])

/-- The method the engine object actually holds under
`predictSkillDevelopment`. -/
def predictSkillDevelopment : List Repo → List Event → SkillPrediction :=
  objectResolve predictSkillDevelopmentBindings (by simp [predictSkillDevelopmentBindings])

/-- The result record of `generatePredictions`. -/
structure Predictions where
  nextTechnology : NextTech
  activityTrend : ActivityTrend
  collaborationGrowth : CollabPrediction
  skillDevelopment : SkillPrediction
deriving DecidableEq, Repr

/-- Embeds `generatePredictions(userData)`. -/
def generatePredictions (userData : UserData) : Predictions :=
  let events := userData.events.getD []
  let repos := userData.repositories.getD []
  { nextTechnology := predictNextTechnology repos
    activityTrend := predictActivityTrend events
    collaborationGrowth := predictCollaborationGrowth events
    skillDevelopment := predictSkillDevelopment repos events }

/-- A level/advice pair, the result shape of `assessSkillStagnation` and
`assessCollaborationIsolation`. -/
structure RiskLevel where
  level : String
  advice : String
deriving DecidableEq, Repr

/-- Embeds `assessSkillStagnation(repos)`. -/
def assessSkillStagnation (repos : List Repo) : RiskLevel :=
  let languages := jsFilterBoolean (repos.map (·.language))
  let uniqueLanguages := (jsSetList languages).length
  let recentLanguages := (jsSetList (jsFilterBoolean ((repos.take 5).map (·.language)))).length
  if (recentLanguages : ℚ) < (uniqueLanguages : ℚ) * (3/10) then
    { level := "Medium", advice := "Consider exploring new technologies to maintain growth" }
  else
    { level := "Low", advice := "Good variety in technology exploration" }

/-- Embeds `assessCollaborationIsolation(events)`. -/
def assessCollaborationIsolation (events : List Event) : RiskLevel :=
  let collaborativeEvents := (events.filter (fun e =>
    e.type == "PullRequestEvent" || e.type == "IssuesEvent" ||
    e.type == "PullRequestReviewEvent")).length
  let collaborationRatio : ℚ := (collaborativeEvents : ℚ) /
    ((if events.length = 0 then 1 else events.length : ℕ) : ℚ)
  if collaborationRatio < 1/10 then
    { level := "High", advice := "Consider engaging more with the GitHub community" }
  else if collaborationRatio < 1/5 then
    { level := "Medium", advice := "Good collaboration, consider expanding your network" }
  else
    { level := "Low", advice := "Excellent community engagement" }

/-- The result record of `analyzeRisks`. -/
structure RiskAnalysis where
  burnoutRisk : BurnoutRisk
  skillStagnation : RiskLevel
  collaborationIsolation : RiskLevel
deriving DecidableEq, Repr

/-- Embeds `analyzeRisks(userData)`. -/
def analyzeRisks (r : Rands) (userData : UserData) : RiskAnalysis :=
  let events := userData.events.getD []
  let repos := userData.repositories.getD []
  { burnoutRisk := assessBurnoutRisk events (analyzeWeeklyPattern events) r.rBurnoutRisk
    skillStagnation := assessSkillStagnation repos
    collaborationIsolation := assessCollaborationIsolation events }

/-- The full `Insights` record returned by `generateInsights`. -/
structure Insights where
  personalityProfile : PersonalityProfile
  workPatterns : WorkPatterns
  codingStyle : CodingStyle
  collaborationStyle : CollaborationStyle
  recommendations : List Recommendation
  predictions : Predictions
  riskAnalysis : RiskAnalysis
deriving DecidableEq, Repr

/-- Embeds `generateInsights(userData)`.  The source method is `async` and only
awaits nothing; its body is the synchronous computation embedded here.
`now` interprets `Date.now()`, `sqrt`/`log10` the `Math` primitives, and
`r` the `Math.random()` draws. -/
def generateInsights (now : ℕ) (sqrt log10 : ℚ → ℚ) (r : Rands)
    (userData : UserData) : Insights :=
  { personalityProfile := analyzePersonalityProfile now sqrt log10 r userData
    workPatterns := analyzeWorkPatterns sqrt r userData
    codingStyle := analyzeCodingStyle userData
    collaborationStyle := analyzeCollaborationStyle userData
    recommendations := generateRecommendations userData
    predictions := generatePredictions userData
    riskAnalysis := analyzeRisks r userData }

end DevPulseAI

/-! ## Theorems -/

open DevPulseAI

/-- Reference evaluation time for the claim-C1 scenario. -/
def c1Now : ℕ := 1000000000000

/-- Ten `PushEvent`s, each dated within the 24 hours before `c1Now`. -/
def c1Events : List Event :=
  (List.range 10).map (fun k =>
    { type := "PushEvent", created_at := c1Now - k * 3600000 })

/-- Twenty-five events: five per weekday (epoch days 4-8, a Monday-Friday
week), none on a weekend, at mixed morning/afternoon hours. -/
def c7Events : List Event :=
  (List.range 5).flatMap (fun d =>
    (List.range 5).map (fun i =>
      { type := "PushEvent",
        created_at := (4 + d) * 86400000 + (9 + i) * 3600000 }))

/-- Ten push events at one fixed timestamp. -/
def c9EventsA : List Event :=
  (List.range 10).map (fun _ => { type := "PushEvent", created_at := 0 })

/-- Ten issue events at scattered timestamps. -/
def c9EventsB : List Event :=
  (List.range 10).map (fun k =>
    { type := "IssuesEvent", created_at := k * 7200000 + 1800000 })

/-- Twenty-one events spread as three per day over seven consecutive days. -/
def c5Events : List Event :=
  (List.range 21).map (fun k =>
    { type := "PushEvent", created_at := k * 28800000 })

/-- A user bundle rich enough that no randomized placeholder branch is
taken: one repository, 21 events over 7 distinct days. -/
def c5User : UserData :=
  { repositories := some [{ name := some "demo", language := some "JavaScript" }]
    events := some c5Events }

/-- The sparse-profile summary: no languages, no repositories, no
followers, no recent events. -/
def c8Patterns : BasicPatterns :=
  { languages := [], repoCount := 0, followerCount := 0, recentActivity := 0 }

/-- The technology recommendation emitted for `c8Patterns`. -/
def c8TechRec : Recommendation :=
  { type := "Technology", title := "Start with JavaScript"
    description := "JavaScript is versatile and perfect for both frontend and backend development."
    confidence := 9/10, icon := "💛" }

/-- The first learning recommendation emitted for `c8Patterns`. -/
def c8LearnRec : Recommendation :=
  { type := "Learning", title := "Git & GitHub Mastery"
    description := "Master version control and collaboration workflows to boost your development skills."
    confidence := 19/20, icon := "📚" }

/-- The first productivity recommendation emitted for `c8Patterns`. -/
def c8ProdRec : Recommendation :=
  { type := "Productivity", title := "Consistent Coding Schedule"
    description := "Establish a regular coding routine to maintain momentum and skills."
    confidence := 17/20, icon := "📅" }

/-- The career recommendation emitted for `c8Patterns`. -/
def c8CareerRec : Recommendation :=
  { type := "Career", title := "Open Source Contribution"
    description := "Contributing to major projects can significantly boost your professional profile."
    confidence := 9/10, icon := "🌟" }

/-- C1 (counterexample): for exactly 10 `PushEvent`s all dated within the
last 24 hours, `assessBurnoutRisk` returns level `"Low"` — strictly below
"Low-Medium" — so the claimed lower bound fails: the `events.length < 20`
insufficient-data guard fires before the recent-intensity threshold is ever
evaluated. -/
theorem c1_ten_push_events_low_risk :
    c1Events.length = 10
    ∧ (c1Events.all (fun e => e.type == "PushEvent")) = true
    ∧ (c1Events.all (fun e =>
        decide (c1Now - 86400000 < e.created_at ∧ e.created_at ≤ c1Now))) = true
    ∧ (assessBurnoutRisk c1Events (analyzeWeeklyPattern c1Events) (1/2)).level = "Low"
    ∧ ¬ ((assessBurnoutRisk c1Events (analyzeWeeklyPattern c1Events) (1/2)).level
          ∈ (["Low-Medium", "Medium", "High"] : List String)) := by
  decide

/-- C1 (amended): any event list with fewer than 20 events — in particular
the claimed 10 recent `PushEvent`s — takes the insufficient-data branch of
`assessBurnoutRisk`: the result is level `"Low"` with the fixed advice text,
a random score in the 1-4 band, and no recommendations list; the
recent-intensity point ladder is never reached. -/
theorem c1_burnout_guard_under_20_events (events : List Event)
    (weeklyPattern : List ℕ) (rand : ℚ) (h : events.length < 20) :
    assessBurnoutRisk events weeklyPattern rand =
      { level := "Low"
        advice := "Build consistent coding habits gradually"
        score := rand * 3 + 1
        recommendations := none } := by
  unfold assessBurnoutRisk
  rw [if_pos h]

/-- Witness for `c1_burnout_guard_under_20_events` at the concrete 10-event
scenario. -/
theorem c1_burnout_guard_witness :
    assessBurnoutRisk c1Events (analyzeWeeklyPattern c1Events) (1/2) =
      { level := "Low"
        advice := "Build consistent coding habits gradually"
        score := 1/2 * 3 + 1
        recommendations := none } :=
  c1_burnout_guard_under_20_events c1Events (analyzeWeeklyPattern c1Events)
    (1/2) (by decide)

/-- C4: the engine object binds `predictCollaborationGrowth` and
`predictSkillDevelopment` twice; the later literal entry overrides the
earlier one, so for every input `generatePredictions` produces the second
definitions' results (the `slice(0,15)`/`slice(15,30)` comparison and the
recent-5-repos analysis), and the first definitions disagree with the second
already on the empty input, so they are never the ones invoked. -/
theorem c4_duplicate_definitions_override :
    predictCollaborationGrowth = predictCollaborationGrowthV2
    ∧ predictSkillDevelopment = predictSkillDevelopmentV2
    ∧ (∀ userData : UserData,
        (generatePredictions userData).collaborationGrowth
          = predictCollaborationGrowthV2 (userData.events.getD [])
        ∧ (generatePredictions userData).skillDevelopment
          = predictSkillDevelopmentV2 (userData.repositories.getD [])
              (userData.events.getD []))
    ∧ predictCollaborationGrowthV1 [] ≠ predictCollaborationGrowthV2 []
    ∧ predictSkillDevelopmentV1 [] [] ≠ predictSkillDevelopmentV2 [] [] := by
  refine ⟨rfl, rfl, fun userData => ⟨rfl, rfl⟩,
    by with_unfolding_all decide, by with_unfolding_all decide⟩

/-- C6: `determinePersonalityType` applies its threshold rules in order with
first-match-wins semantics: each rule's label is returned exactly when its
guard holds and no earlier guard holds. -/
theorem c6_personality_type_first_match_wins (m : Metrics) :
    (m.innovation > 7 ∧ m.exploration > 7 →
      determinePersonalityType m = "Innovator 🚀")
    ∧ (¬ (m.innovation > 7 ∧ m.exploration > 7) →
        m.collaboration > 7 ∧ m.consistency > 7 →
        determinePersonalityType m = "Team Player 🤝")
    ∧ (¬ (m.innovation > 7 ∧ m.exploration > 7) →
        ¬ (m.collaboration > 7 ∧ m.consistency > 7) →
        m.consistency > 8 →
        determinePersonalityType m = "Reliable Contributor 🎯")
    ∧ (¬ (m.innovation > 7 ∧ m.exploration > 7) →
        ¬ (m.collaboration > 7 ∧ m.consistency > 7) →
        ¬ (m.consistency > 8) →
        m.exploration > 8 →
        determinePersonalityType m = "Technology Explorer 🔍")
    ∧ (¬ (m.innovation > 7 ∧ m.exploration > 7) →
        ¬ (m.collaboration > 7 ∧ m.consistency > 7) →
        ¬ (m.consistency > 8) →
        ¬ (m.exploration > 8) →
        determinePersonalityType m = "Balanced Developer ⚖️") := by
  unfold determinePersonalityType
  refine ⟨fun h1 => ?_, fun n1 h2 => ?_, fun n1 n2 h3 => ?_,
    fun n1 n2 n3 h4 => ?_, fun n1 n2 n3 n4 => ?_⟩
  · rw [if_pos h1]
  · rw [if_neg n1, if_pos h2]
  · rw [if_neg n1, if_neg n2, if_pos h3]
  · rw [if_neg n1, if_neg n2, if_neg n3, if_pos h4]
  · rw [if_neg n1, if_neg n2, if_neg n3, if_neg n4]

/-- Witness for `c6_personality_type_first_match_wins`: a score record whose
innovation and exploration both exceed 7 is classified as the Innovator
type. -/
theorem c6_personality_type_witness :
    determinePersonalityType
      { innovation := 8, collaboration := 0, consistency := 0,
        exploration := 8, leadership := 0 } = "Innovator 🚀" :=
  (c6_personality_type_first_match_wins
    { innovation := 8, collaboration := 0, consistency := 0,
      exploration := 8, leadership := 0 }).1 (by norm_num)

/-- C10: on an empty event list every hourly bucket is 0, the maximal bucket
is 0, and `identifyPeakHours` returns all 24 hours `0..23` (every bucket
satisfies `count ≥ 0.8 × 0`), rather than an empty or small subset. -/
theorem c10_empty_events_all_hours_peak :
    analyzeTimeDistribution [] = List.replicate 24 0
    ∧ (analyzeTimeDistribution []).foldl Nat.max 0 = 0
    ∧ identifyPeakHours (analyzeTimeDistribution []) = List.range 24 := by
  with_unfolding_all decide

/-- C2: `generateInsights` on `{repositories: [], events: []}` is total and
returns the fully-populated record below, with every field of the output
shape present (the one degenerate value being the JavaScript `Infinity`
produced by `analyzeProjectJuggling`'s division by zero, which does not
raise); and for every input object, absent `repositories`/`events` fields
are treated exactly as empty arrays.  Both parts hold for every evaluation
time and every interpretation of `Math.sqrt`/`Math.log10` (none of which is
consulted on this path); the second part is stated at the concrete random
draws 1/2 (the draws only scale the placeholder scores). -/
theorem c2_generate_insights_empty_total :
    (∀ (now : ℕ) (sqrt log10 : ℚ → ℚ) (r : Rands) (login : Option String)
        (publicRepos followers : Option ℕ),
      generateInsights now sqrt log10 r
        { login := login, repositories := none, events := none,
          public_repos := publicRepos, followers := followers }
        = generateInsights now sqrt log10 r
          { login := login, repositories := some [], events := some [],
            public_repos := publicRepos, followers := followers })
    ∧ (∀ (now : ℕ) (sqrt log10 : ℚ → ℚ),
      generateInsights now sqrt log10
        { rInnovation := 1/2, rCollaboration := 1/2, rConsistency := 1/2,
          rExploration := 1/2, rLeadership := 1/2, rBurnoutWork := 1/2,
          rBurnoutRisk := 1/2 }
        { repositories := some [], events := some [] }
        = { personalityProfile :=
              { type := "Balanced Developer ⚖️"
                scores := { innovation := 11/2, collaboration := 9/2,
                            consistency := 5, exploration := 11/2,
                            leadership := 7/2 }
                description := "You maintain a well-rounded approach to development and collaboration."
                strengths := ["Dedicated Development", "Problem Solving"]
                growthAreas := ["Increase community involvement",
                  "Take ownership of projects"] }
            workPatterns :=
              { peakHours := List.range 24
                workingStyle := "Getting Started 🌱"
                sessionLength := { average := "Unknown", pattern := "Insufficient data" }
                multitasking := { uniqueProjects := 0
                                  averageEventsPerProject := JSNum.inf
                                  multitaskingScore := 0 }
                consistency := 5
                burnoutRisk := { level := "Low"
                                 advice := "Build consistent coding habits gradually"
                                 score := 5/2
                                 recommendations := none } }
            codingStyle :=
              { languagePreferences := []
                projectTypes := []
                commitStyle := { style := "Unknown", pattern := "No push events found" }
                testingApproach := "Exploratory Development"
                architectureStyle := [] }
            collaborationStyle :=
              { teamPlayer := 0
                mentorshipStyle := "Focus on Own Work"
                communicationStyle := "Task-Focused"
                leadership := "Individual Contributor"
                networkSize := { repositoryNetwork := 0, organizationNetwork := 0,
                                 networkScore := 0 } }
            recommendations :=
              [{ type := "Technology", title := "Start with JavaScript"
                 description := "JavaScript is versatile and perfect for both frontend and backend development."
                 confidence := 9/10, icon := "💛" },
               { type := "Learning", title := "Git & GitHub Mastery"
                 description := "Master version control and collaboration workflows to boost your development skills."
                 confidence := 19/20, icon := "📚" },
               { type := "Learning", title := "Algorithm & Data Structures"
                 description := "Build strong programming fundamentals with algorithms and data structures."
                 confidence := 9/10, icon := "🧮" },
               { type := "Productivity", title := "Consistent Coding Schedule"
                 description := "Establish a regular coding routine to maintain momentum and skills."
                 confidence := 17/20, icon := "📅" },
               { type := "Productivity", title := "Code Review Practices"
                 description := "Regular code reviews improve quality and knowledge sharing."
                 confidence := 3/4, icon := "👥" },
               { type := "Career", title := "Open Source Contribution"
                 description := "Contributing to major projects can significantly boost your professional profile."
                 confidence := 9/10, icon := "🌟" }]
            predictions :=
              { nextTechnology := { primary := "React", alternatives := []
                                    confidence := 1/2
                                    reasoning := "Popular choice for modern development" }
                activityTrend := { trend := "Building Momentum 📈", confidence := 3/5
                                   description := "Start building consistent coding habits" }
                collaborationGrowth := { trend := "Stable Collaboration 📊"
                                         confidence := 9/10, suggestion := none }
                skillDevelopment := { learningVelocity := "Stable"
                                      skillDiversification := "Deepening"
                                      confidence := 7/10
                                      insights := none, recommendations := none } }
            riskAnalysis :=
              { burnoutRisk := { level := "Low"
                                 advice := "Build consistent coding habits gradually"
                                 score := 5/2
                                 recommendations := none }
                skillStagnation := { level := "Low"
                                     advice := "Good variety in technology exploration" }
                collaborationIsolation := { level := "High"
                                            advice := "Consider engaging more with the GitHub community" } } }) := by
  constructor
  · intro now sqrt log10 r login publicRepos followers
    rfl
  · intro now sqrt log10
    with_unfolding_all rfl

/-- Every score calculator ends with `Math.min(10, Math.max(1, score))`,
which lands in `[1, 10]` whatever the raw score. -/
theorem clamp_one_ten (s : ℚ) : 1 ≤ min 10 (max 1 s) ∧ min 10 (max 1 s) ≤ 10 :=
  ⟨le_min (by norm_num) (le_max_left 1 s), min_le_left 10 (max 1 s)⟩

/-- C3: each of the five personality score calculators returns a value in
`[1, 10]` for every input collection — including empty ones, where the
result is the randomized placeholder `rand·k + c` for a draw
`rand ∈ [0, 1)` — and for every interpretation of the `Math.sqrt` /
`Math.log10` primitives and every evaluation time. -/
theorem c3_score_calculators_in_range (rand : ℚ)
    (h0 : 0 ≤ rand) (h1 : rand < 1) :
    (∀ (now : ℕ) (repos : List Repo),
      1 ≤ calculateInnovationScore now rand repos
      ∧ calculateInnovationScore now rand repos ≤ 10)
    ∧ (∀ events : List Event,
      1 ≤ calculateCollaborationScore rand events
      ∧ calculateCollaborationScore rand events ≤ 10)
    ∧ (∀ (sqrt : ℚ → ℚ) (events : List Event),
      1 ≤ calculateConsistencyScore sqrt rand events
      ∧ calculateConsistencyScore sqrt rand events ≤ 10)
    ∧ (∀ repos : List Repo,
      1 ≤ calculateExplorationScore rand repos
      ∧ calculateExplorationScore rand repos ≤ 10)
    ∧ (∀ (log10 : ℚ → ℚ) (repos : List Repo) (events : List Event),
      1 ≤ calculateLeadershipScore log10 rand repos events
      ∧ calculateLeadershipScore log10 rand repos events ≤ 10) := by
  have ite_bound : ∀ {c : Prop} [Decidable c] {x y : ℚ},
      (1 ≤ x ∧ x ≤ 10) → (1 ≤ y ∧ y ≤ 10) →
      1 ≤ (if c then x else y) ∧ (if c then x else y) ≤ 10 := by
    intro c inst x y hx hy
    split_ifs <;> assumption
  refine ⟨fun now repos => ?_, fun events => ?_, fun sqrt events => ?_,
    fun repos => ?_, fun log10 repos events => ?_⟩
  · exact ite_bound ⟨by linarith, by linarith⟩ (clamp_one_ten _)
  · exact ite_bound ⟨by linarith, by linarith⟩ (clamp_one_ten _)
  · exact ite_bound ⟨by linarith, by linarith⟩
      (ite_bound ⟨by linarith, by linarith⟩ (clamp_one_ten _))
  · exact ite_bound ⟨by linarith, by linarith⟩ (clamp_one_ten _)
  · exact ite_bound ⟨by linarith, by linarith⟩ (clamp_one_ten _)

/-- Witness for `c3_score_calculators_in_range` at the draw 1/2 and empty
input collections (the randomized-placeholder branches). -/
theorem c3_score_calculators_witness :
    ((0:ℚ) ≤ 1/2 ∧ (1/2:ℚ) < 1)
    ∧ (1 ≤ calculateInnovationScore 0 (1/2) []
        ∧ calculateInnovationScore 0 (1/2) [] ≤ 10)
    ∧ (1 ≤ calculateCollaborationScore (1/2) []
        ∧ calculateCollaborationScore (1/2) [] ≤ 10)
    ∧ (1 ≤ calculateConsistencyScore (fun _ => 0) (1/2) []
        ∧ calculateConsistencyScore (fun _ => 0) (1/2) [] ≤ 10)
    ∧ (1 ≤ calculateExplorationScore (1/2) []
        ∧ calculateExplorationScore (1/2) [] ≤ 10)
    ∧ (1 ≤ calculateLeadershipScore (fun _ => 0) (1/2) [] []
        ∧ calculateLeadershipScore (fun _ => 0) (1/2) [] [] ≤ 10) := by
  have h := c3_score_calculators_in_range (1/2) (by norm_num) (by norm_num)
  exact ⟨⟨by norm_num, by norm_num⟩, h.1 0 [], h.2.1 [],
    h.2.2.1 (fun _ => 0) [], h.2.2.2.1 [], h.2.2.2.2 (fun _ => 0) [] []⟩

/-- C7: whenever the day-of-week buckets carry no weekend activity and are
uniform across the five weekdays, with at least 20 events in total,
`determineWorkingStyle` never returns a "Weekend" variant label: the weekend
ratio is 0, and the weekend branch demands a ratio above 0.4. -/
theorem c7_no_weekend_label_for_weekday_uniform (events : List Event)
    (h0 : (analyzeWeeklyPattern events).getD 0 0 = 0)
    (h6 : (analyzeWeeklyPattern events).getD 6 0 = 0)
    (huniform :
      (analyzeWeeklyPattern events).getD 1 0 = (analyzeWeeklyPattern events).getD 2 0
      ∧ (analyzeWeeklyPattern events).getD 2 0 = (analyzeWeeklyPattern events).getD 3 0
      ∧ (analyzeWeeklyPattern events).getD 3 0 = (analyzeWeeklyPattern events).getD 4 0
      ∧ (analyzeWeeklyPattern events).getD 4 0 = (analyzeWeeklyPattern events).getD 5 0)
    (htotal : 20 ≤ events.length) :
    determineWorkingStyle (analyzeTimeDistribution events)
        (analyzeWeeklyPattern events) ≠ "Weekend Evening Warrior 💪"
    ∧ determineWorkingStyle (analyzeTimeDistribution events)
        (analyzeWeeklyPattern events) ≠ "Weekend Day Hacker 🎯" := by
  unfold determineWorkingStyle
  simp only [h0, h6, Nat.add_zero, Nat.zero_add, Nat.cast_zero, zero_div]
  rw [if_neg (by norm_num : ¬ ((0:ℚ) > 2/5))]
  split_ifs <;> exact ⟨by decide, by decide⟩

/-- Witness for `c7_no_weekend_label_for_weekday_uniform` at the concrete
uniform Monday-Friday event list. -/
theorem c7_no_weekend_label_witness :
    determineWorkingStyle (analyzeTimeDistribution c7Events)
        (analyzeWeeklyPattern c7Events) ≠ "Weekend Evening Warrior 💪"
    ∧ determineWorkingStyle (analyzeTimeDistribution c7Events)
        (analyzeWeeklyPattern c7Events) ≠ "Weekend Day Hacker 🎯" :=
  c7_no_weekend_label_for_weekday_uniform c7Events (by decide) (by decide)
    ⟨by decide, by decide, by decide, by decide⟩ (by decide)

/-- C9: for two event lists of equal length `n ≥ 10`,
`predictActivityTrend` returns the same trend label and the same confidence:
the three floor-sliced chunks have sizes determined by `n` alone, so the
chunk ratios and the chosen trend branch never depend on the events'
timestamps, types, or ordering (only the description suffix can). -/
theorem c9_activity_trend_depends_only_on_length (es1 es2 : List Event)
    (hlen : es1.length = es2.length) (h10 : 10 ≤ es1.length) :
    (predictActivityTrend es1).trend = (predictActivityTrend es2).trend
    ∧ (predictActivityTrend es1).confidence
        = (predictActivityTrend es2).confidence := by
  have h1 : ¬ es1.length < 10 := by omega
  have h2 : ¬ es2.length < 10 := by omega
  have slice_len : ∀ (es : List Event),
      (jsSlice es 0 (es.length / 3)).length = es.length / 3
      ∧ (jsSlice es (es.length / 3) (es.length * 2 / 3)).length
          = es.length * 2 / 3 - es.length / 3
      ∧ (es.drop (es.length * 2 / 3)).length = es.length - es.length * 2 / 3 := by
    intro es
    have d3 : es.length / 3 ≤ es.length := Nat.div_le_self _ _
    have d23 : es.length * 2 / 3 ≤ es.length := by omega
    refine ⟨?_, ?_, ?_⟩ <;>
      simp [jsSlice, Nat.min_eq_left, d3, d23]
  obtain ⟨a1, b1, c1⟩ := slice_len es1
  obtain ⟨a2, b2, c2⟩ := slice_len es2
  constructor <;>
  · simp only [predictActivityTrend, if_neg h1, if_neg h2, a1, b1, c1,
      a2, b2, c2]
    rw [hlen]

/-- Witness for `c9_activity_trend_depends_only_on_length`: ten same-instant
push events versus ten scattered issue events give the same trend label and
confidence. -/
theorem c9_activity_trend_witness :
    (predictActivityTrend c9EventsA).trend = (predictActivityTrend c9EventsB).trend
    ∧ (predictActivityTrend c9EventsA).confidence
        = (predictActivityTrend c9EventsB).confidence :=
  c9_activity_trend_depends_only_on_length c9EventsA c9EventsB
    (by decide) (by decide)

/-- With a nonempty repository list, the innovation score never consults its
random draw. -/
theorem calculateInnovationScore_rand_irrel (now : ℕ) (ra rb : ℚ)
    (repos : List Repo) (h : ¬ repos.length = 0) :
    calculateInnovationScore now ra repos = calculateInnovationScore now rb repos := by
  unfold calculateInnovationScore
  rw [if_neg h, if_neg h]

/-- With a nonempty event list, the collaboration score never consults its
random draw. -/
theorem calculateCollaborationScore_rand_irrel (ra rb : ℚ)
    (events : List Event) (h : ¬ events.length = 0) :
    calculateCollaborationScore ra events = calculateCollaborationScore rb events := by
  unfold calculateCollaborationScore
  rw [if_neg h, if_neg h]

/-- With at least 5 events over at least 7 distinct days, the consistency
score never consults its random draw. -/
theorem calculateConsistencyScore_rand_irrel (sqrt : ℚ → ℚ) (ra rb : ℚ)
    (events : List Event) (h5 : ¬ events.length < 5)
    (h7 : ¬ (groupEventsByDay events).length < 7) :
    calculateConsistencyScore sqrt ra events
      = calculateConsistencyScore sqrt rb events := by
  unfold calculateConsistencyScore
  simp only [if_neg h5, if_neg h7]

/-- With a nonempty repository list, the exploration score never consults
its random draw. -/
theorem calculateExplorationScore_rand_irrel (ra rb : ℚ)
    (repos : List Repo) (h : ¬ repos.length = 0) :
    calculateExplorationScore ra repos = calculateExplorationScore rb repos := by
  unfold calculateExplorationScore
  rw [if_neg h, if_neg h]

/-- With a nonempty repository or event list, the leadership score never
consults its random draw. -/
theorem calculateLeadershipScore_rand_irrel (log10 : ℚ → ℚ) (ra rb : ℚ)
    (repos : List Repo) (events : List Event)
    (h : ¬ (repos.length = 0 ∧ events.length = 0)) :
    calculateLeadershipScore log10 ra repos events
      = calculateLeadershipScore log10 rb repos events := by
  unfold calculateLeadershipScore
  rw [if_neg h, if_neg h]

/-- With at least 20 events, the burnout assessment never consults its
random draw. -/
theorem assessBurnoutRisk_rand_irrel (events : List Event)
    (weeklyPattern : List ℕ) (ra rb : ℚ) (h : ¬ events.length < 20) :
    assessBurnoutRisk events weeklyPattern ra
      = assessBurnoutRisk events weeklyPattern rb := by
  unfold assessBurnoutRisk
  rw [if_neg h, if_neg h]

/-- C5: on input rich enough that no randomized placeholder branch is taken
— a nonempty repository list, at least 20 events, spread over at least 7
distinct days — two invocations of `generateInsights` with identical input
and evaluation time agree on the entire output record (in particular on all
classification strings and recommendation titles), whatever the two runs'
random draws. -/
theorem c5_generate_insights_deterministic (now : ℕ) (sqrt log10 : ℚ → ℚ)
    (r1 r2 : Rands) (userData : UserData)
    (hrepos : ¬ (userData.repositories.getD []).length = 0)
    (hev : 20 ≤ (userData.events.getD []).length)
    (hdays : 7 ≤ (groupEventsByDay (userData.events.getD [])).length) :
    generateInsights now sqrt log10 r1 userData
      = generateInsights now sqrt log10 r2 userData := by
  have hev0 : ¬ (userData.events.getD []).length = 0 := by omega
  have h5 : ¬ (userData.events.getD []).length < 5 := by omega
  have h7 : ¬ (groupEventsByDay (userData.events.getD [])).length < 7 := by omega
  have h20 : ¬ (userData.events.getD []).length < 20 := by omega
  have hboth : ¬ ((userData.repositories.getD []).length = 0
      ∧ (userData.events.getD []).length = 0) := fun hc => hrepos hc.1
  simp only [generateInsights, analyzePersonalityProfile, analyzeWorkPatterns,
    analyzeRisks]
  rw [calculateInnovationScore_rand_irrel now r1.rInnovation r2.rInnovation _ hrepos,
    calculateCollaborationScore_rand_irrel r1.rCollaboration r2.rCollaboration _ hev0,
    calculateConsistencyScore_rand_irrel sqrt r1.rConsistency r2.rConsistency _ h5 h7,
    calculateExplorationScore_rand_irrel r1.rExploration r2.rExploration _ hrepos,
    calculateLeadershipScore_rand_irrel log10 r1.rLeadership r2.rLeadership _ _ hboth,
    assessBurnoutRisk_rand_irrel _ _ r1.rBurnoutWork r2.rBurnoutWork h20,
    assessBurnoutRisk_rand_irrel _ _ r1.rBurnoutRisk r2.rBurnoutRisk h20]

/-- Witness for `c5_generate_insights_deterministic`: on the concrete rich
bundle, a run with all draws 0 equals a run with all draws 1/2. -/
theorem c5_generate_insights_witness :
    generateInsights 0 (fun _ => 0) (fun _ => 0)
      { rInnovation := 0, rCollaboration := 0, rConsistency := 0,
        rExploration := 0, rLeadership := 0, rBurnoutWork := 0,
        rBurnoutRisk := 0 } c5User
    = generateInsights 0 (fun _ => 0) (fun _ => 0)
      { rInnovation := 1/2, rCollaboration := 1/2, rConsistency := 1/2,
        rExploration := 1/2, rLeadership := 1/2, rBurnoutWork := 1/2,
        rBurnoutRisk := 1/2 } c5User :=
  c5_generate_insights_deterministic 0 (fun _ => 0) (fun _ => 0) _ _ c5User
    (by decide) (by decide) (by decide)

/-- C8: every confidence value produced by the four recommendation
generators and the four prediction generators (both shadowed and overriding
versions of the duplicated ones) lies in `[0, 1]`; in particular
`predictNextTechnology`'s confidence equals
`min(0.9, 0.5 + 0.1·uniqueLanguageCount + 0.01·repoCount)` and is capped at
0.9. -/
theorem c8_confidence_in_unit_interval :
    (∀ insights : BasicPatterns, ∀ rec ∈ generateTechRecommendations insights,
      0 ≤ rec.confidence ∧ rec.confidence ≤ 1)
    ∧ (∀ insights : BasicPatterns,
        ∀ rec ∈ generateLearningRecommendations insights,
      0 ≤ rec.confidence ∧ rec.confidence ≤ 1)
    ∧ (∀ insights : BasicPatterns,
        ∀ rec ∈ generateProductivityRecommendations insights,
      0 ≤ rec.confidence ∧ rec.confidence ≤ 1)
    ∧ (∀ insights : BasicPatterns,
        ∀ rec ∈ generateCareerRecommendations insights,
      0 ≤ rec.confidence ∧ rec.confidence ≤ 1)
    ∧ (∀ repos : List Repo,
        0 ≤ (predictNextTechnology repos).confidence
        ∧ (predictNextTechnology repos).confidence ≤ 9/10
        ∧ (predictNextTechnology repos).confidence
            = min (9/10)
                (1/2 + ((jsSetList (jsFilterBoolean (repos.map (·.language)))).length : ℚ)
                    * (1/10)
                  + (repos.length : ℚ) * (1/100)))
    ∧ (∀ events : List Event,
        0 ≤ (predictActivityTrend events).confidence
        ∧ (predictActivityTrend events).confidence ≤ 1)
    ∧ (∀ events : List Event,
        (0 ≤ (predictCollaborationGrowth events).confidence
          ∧ (predictCollaborationGrowth events).confidence ≤ 1)
        ∧ (0 ≤ (predictCollaborationGrowthV1 events).confidence
          ∧ (predictCollaborationGrowthV1 events).confidence ≤ 1))
    ∧ (∀ (repos : List Repo) (events : List Event),
        (0 ≤ (predictSkillDevelopment repos events).confidence
          ∧ (predictSkillDevelopment repos events).confidence ≤ 1)
        ∧ (0 ≤ (predictSkillDevelopmentV1 repos events).confidence
          ∧ (predictSkillDevelopmentV1 repos events).confidence ≤ 1)) := by
  have memBound : ∀ (gen : BasicPatterns → List Recommendation),
      (∀ p, ((gen p).all
        (fun rec => decide (0 ≤ rec.confidence ∧ rec.confidence ≤ 1))) = true) →
      ∀ p, ∀ rec ∈ gen p, 0 ≤ rec.confidence ∧ rec.confidence ≤ 1 := by
    intro gen hall p rec hr
    exact of_decide_eq_true (List.all_eq_true.mp (hall p) rec hr)
  refine ⟨memBound _ ?_, memBound _ ?_, memBound _ ?_, memBound _ ?_,
    fun repos => ?_, fun events => ?_, fun events => ⟨?_, ?_⟩,
    fun repos events => ⟨?_, ?_⟩⟩
  · intro p
    simp only [generateTechRecommendations]
    split_ifs <;> with_unfolding_all decide
  · intro p
    simp only [generateLearningRecommendations]
    split_ifs <;> with_unfolding_all decide
  · intro p
    simp only [generateProductivityRecommendations]
    split_ifs <;> with_unfolding_all decide
  · intro p
    simp only [generateCareerRecommendations]
    split_ifs <;> with_unfolding_all decide
  · have hc : (predictNextTechnology repos).confidence
        = min (9/10)
            (1/2 + ((jsSetList (jsFilterBoolean (repos.map (·.language)))).length : ℚ)
                * (1/10)
              + (repos.length : ℚ) * (1/100)) := rfl
    refine ⟨?_, ?_, hc⟩ <;> rw [hc]
    · exact le_min (by norm_num) (by positivity)
    · exact min_le_left _ _
  · by_cases h : events.length < 10
    · simp only [predictActivityTrend, if_pos h]
      norm_num
    · simp only [predictActivityTrend, if_neg h]
      split_ifs <;> exact ⟨by norm_num, by norm_num⟩
  · simp only [predictCollaborationGrowth, objectResolve,
      predictCollaborationGrowthBindings, List.getLast,
      predictCollaborationGrowthV2]
    split_ifs <;> exact ⟨by norm_num, by norm_num⟩
  · simp only [predictCollaborationGrowthV1]
    split_ifs <;> exact ⟨by norm_num, by norm_num⟩
  · simp only [predictSkillDevelopment, objectResolve,
      predictSkillDevelopmentBindings, List.getLast, predictSkillDevelopmentV2]
    norm_num
  · simp only [predictSkillDevelopmentV1]
    exact ⟨le_min (by norm_num) (by positivity),
      le_trans (min_le_left _ _) (by norm_num)⟩

/-- Witness for `c8_confidence_in_unit_interval`: the hypotheses are
discharged at the sparse profile `c8Patterns` (one emitted recommendation
per generator) and at empty prediction inputs. -/
theorem c8_confidence_witness :
    (0 ≤ c8TechRec.confidence ∧ c8TechRec.confidence ≤ 1)
    ∧ (0 ≤ c8LearnRec.confidence ∧ c8LearnRec.confidence ≤ 1)
    ∧ (0 ≤ c8ProdRec.confidence ∧ c8ProdRec.confidence ≤ 1)
    ∧ (0 ≤ c8CareerRec.confidence ∧ c8CareerRec.confidence ≤ 1)
    ∧ (0 ≤ (predictNextTechnology []).confidence
        ∧ (predictNextTechnology []).confidence ≤ 9/10
        ∧ (predictNextTechnology []).confidence
            = min (9/10)
                (1/2 + ((jsSetList (jsFilterBoolean (([] : List Repo).map (·.language)))).length : ℚ)
                    * (1/10)
                  + (([] : List Repo).length : ℚ) * (1/100)))
    ∧ (0 ≤ (predictActivityTrend []).confidence
        ∧ (predictActivityTrend []).confidence ≤ 1) := by
  have h := c8_confidence_in_unit_interval
  exact ⟨h.1 c8Patterns c8TechRec (List.mem_cons_self _ _),
    h.2.1 c8Patterns c8LearnRec (List.mem_cons_self _ _),
    h.2.2.1 c8Patterns c8ProdRec (List.mem_cons_self _ _),
    h.2.2.2.1 c8Patterns c8CareerRec (List.mem_cons_self _ _),
    h.2.2.2.2.1 [], h.2.2.2.2.2.1 []⟩
